import Mathlib

/-!
Verification development for the `py-job` multi-source job aggregation
pipeline (`src/scraper.py`).  Python runtime values are shallowly embedded
as the inductive type `PyVal`; the functions `validate_location`,
`clean_nan_values`, `scrape_custom_sites` and `scrape_jobs_by_keyword` are
translated from the source.  Network fetches (`requests.get`) and the
external structured provider (`jobspy.scrape_jobs` together with the
pandas post-processing inside the per-keyword `try` block) are modeled as
oracle inputs, since their outcomes are environment-dependent.
-/

namespace PyJob

/-- Python float values: a finite value (modeled as a rational), NaN, or a
signed infinity. -/
inductive PyFloat where
  | finite (q : ℚ)
  | nan
  | inf
  | ninf

/-- A Python runtime value as it can appear in the scraper's data:
`None`, `bool`, `int`, `float`, `str`, `list`, `tuple`, NumPy arrays
(which occur as DataFrame cell values), and `dict` with string keys
(the only key type used by the program).  Dicts and lists keep insertion
order, as in Python. -/
inductive PyVal where
  | none
  | bool (b : Bool)
  | int (n : Int)
  | float (x : PyFloat)
  | str (s : String)
  | list (xs : List PyVal)
  | tuple (xs : List PyVal)
  | ndarray (xs : List PyVal)
  | dict (kvs : List (String × PyVal))

/-- The one exception kind the sanitizer can produce: the `ValueError`
NumPy raises when an array of size other than one is used in a boolean
context ("the truth value of an array ... is ambiguous"). -/
inductive PyErr where
  | valueError

/-- Models `np.isnan` on a Python float. -/
def npIsnan : PyFloat → Bool
  | .nan => true
  | _ => false

/-- Models `np.isinf` on a Python float (true for both infinities). -/
def npIsinf : PyFloat → Bool
  | .inf => true
  | .ninf => true
  | _ => false

/-- Elementwise `pd.isna` over the cells of an object array: `None` and
float NaN are the missing-value markers; every other object is not
missing. -/
def isnaScalar : PyVal → Bool
  | .none => true
  | .float .nan => true
  | _ => false

/-- Models the boolean evaluation of `pd.isna(data)` in the
`elif pd.isna(data):` branch of `clean_nan_values` for the values that
reach it.  For scalars (`None`, numbers, strings, booleans) `pd.isna`
returns a plain bool; for a tuple pandas' `isna` falls through to its
default case and returns `False`; for a NumPy array it returns an array
of bools, whose use as a condition raises `ValueError` unless the array
has exactly one element. -/
def pdIsnaTruthy : PyVal → Except PyErr Bool
  | .none => .ok true
  | .float .nan => .ok true
  | .ndarray [x] => .ok (isnaScalar x)
  | .ndarray _ => .error .valueError
  | _ => .ok false

mutual

/-- Translation of `clean_nan_values` (src/scraper.py lines 119-134):
dicts and lists are rebuilt with sanitized values, a float that is NaN or
infinite becomes `None`, and everything else goes through the
`elif pd.isna(data): return None / return data` tail. -/
def cleanNanValues : PyVal → Except PyErr PyVal
  | .dict kvs => Except.map PyVal.dict (cleanPairs kvs)
  | .list xs => Except.map PyVal.list (cleanElems xs)
  | .float x => .ok (if npIsnan x || npIsinf x then PyVal.none else PyVal.float x)
  | v => Except.map (fun b => if b then PyVal.none else v) (pdIsnaTruthy v)

/-- Sanitizes the values of a dict's key/value pairs in order (the dict
comprehension in `clean_nan_values`). -/
def cleanPairs : List (String × PyVal) → Except PyErr (List (String × PyVal))
  | [] => .ok []
  | (k, v) :: rest => do
    let v' ← cleanNanValues v
    let rest' ← cleanPairs rest
    .ok ((k, v') :: rest')

/-- Sanitizes the elements of a list in order (the list comprehension in
`clean_nan_values`). -/
def cleanElems : List PyVal → Except PyErr (List PyVal)
  | [] => .ok []
  | v :: rest => do
    let v' ← cleanNanValues v
    let rest' ← cleanElems rest
    .ok (v' :: rest')

end

example : cleanNanValues (.dict [("a", .float .nan), ("b", .str "x")]) =
    .ok (.dict [("a", .none), ("b", .str "x")]) := rfl

example : cleanNanValues (.ndarray [.float (.finite 1), .float (.finite 2)]) =
    .error .valueError := rfl

/-- The whitespace characters stripped by Python's `str.strip()`
(restricted to the ASCII whitespace set; the inputs handled by the
program are ASCII). -/
def pyIsSpace (c : Char) : Bool :=
  c == ' ' || c == '\t' || c == '\n' || c == '\r' || c == '\x0b' || c == '\x0c'

/-- Models Python `str.strip()`: removes leading and trailing whitespace. -/
def pyStrip (s : String) : String :=
  ⟨(((s.data.dropWhile pyIsSpace).reverse.dropWhile pyIsSpace).reverse)⟩

/-- Models Python `str.lower()` characterwise.  `Char.toLower` lowercases
the ASCII range and leaves other characters unchanged; this agrees with
Python on every string the program compares (all comparison targets are
ASCII or already lowercase). -/
def pyLower (s : String) : String :=
  ⟨s.data.map Char.toLower⟩

/-- Models Python `str.capitalize()`: first character uppercased, the
rest lowercased. -/
def pyCapitalize (s : String) : String :=
  match s.data with
  | [] => ⟨[]⟩
  | c :: cs => ⟨Char.toUpper c :: cs.map Char.toLower⟩

/-- Translation of `validate_location` (src/scraper.py lines 101-116).
The comparison against `VALID_COUNTRIES` is commented out in the source,
so only the two sentinel values are accepted. -/
def validate_location (location : String) : Bool × String :=
  let location_lower := pyStrip (pyLower location)
  if location_lower = "remote" || location_lower = "worldwide" then
    (true, pyCapitalize location_lower)
  else
    (false, location)

example : validate_location "  REMOTE " = (true, "Remote") := rfl

example : validate_location "usa" = (false, "usa") := rfl

/-- The `VALID_COUNTRIES` set literal (src/scraper.py lines 12-26), in
source order.  In Python this is a `set`; its elements are pairwise
distinct, and the program only uses it via `sorted(...)`, via `[:20]` of
its (unspecified) iteration order inside the error message, and via a
commented-out membership test. -/
def VALID_COUNTRIES : List String :=
  ["argentina", "australia", "austria", "bahrain", "bangladesh", "belgium",
   "bulgaria", "brazil", "canada", "chile", "china", "colombia", "costa rica",
   "croatia", "cyprus", "czech republic", "czechia", "denmark", "ecuador",
   "egypt", "estonia", "finland", "france", "germany", "greece", "hong kong",
   "hungary", "india", "indonesia", "ireland", "israel", "italy", "japan",
   "kuwait", "latvia", "lithuania", "luxembourg", "malaysia", "malta", "mexico",
   "morocco", "netherlands", "new zealand", "nigeria", "norway", "oman",
   "pakistan", "panama", "peru", "philippines", "poland", "portugal", "qatar",
   "romania", "saudi arabia", "singapore", "slovakia", "slovenia", "south africa",
   "south korea", "spain", "sweden", "switzerland", "taiwan", "thailand",
   "türkiye", "turkey", "ukraine", "united arab emirates", "uk", "united kingdom",
   "usa", "us", "united states", "uruguay", "venezuela", "vietnam", "usa/ca",
   "worldwide"]

/-- Python string strict comparison: lexicographic by code point. -/
def strLtB : List Char → List Char → Bool
  | [], [] => false
  | [], _ :: _ => true
  | _ :: _, [] => false
  | a :: as, b :: bs => a.val < b.val || (a.val == b.val && strLtB as bs)

/-- Python string `<=`, derived from the strict code-point order. -/
def pyStrLe (s t : String) : Bool := !(strLtB t.data s.data)

/-- Inserts a string into an already sorted list, keeping it sorted. -/
def insertSorted (s : String) : List String → List String
  | [] => [s]
  | t :: ts => if pyStrLe s t then s :: t :: ts else t :: insertSorted s ts

/-- Models Python `sorted` on a list of strings (ascending code-point
order; the program sorts lists of pairwise distinct strings, so
stability is irrelevant). -/
def pySorted (l : List String) : List String := l.foldr insertSorted []

example : pySorted ["b", "a", "c"] = ["a", "b", "c"] := rfl

/-- Models Python `sep.join(parts)`. -/
def pyJoin (sep : String) : List String → String
  | [] => ""
  | [x] => x
  | x :: xs => x ++ sep ++ pyJoin sep xs

/-- Models Python `s.startswith(pre)`. -/
def pyStartsWith (s pre : String) : Bool := pre.data.isPrefixOf s.data

/-- Models Python `url.split('/')` (split on every slash, keeping empty
pieces). -/
def splitSlash : List Char → List (List Char)
  | [] => [[]]
  | c :: rest =>
    if c = '/' then [] :: splitSlash rest
    else
      match splitSlash rest with
      | [] => [[c]]
      | h :: t => (c :: h) :: t

/-- Models Python `"/".join(parts)` on character lists. -/
def joinSlash : List (List Char) → List Char
  | [] => []
  | [x] => x
  | x :: xs => x ++ '/' :: joinSlash xs

/-- The `base_url` computation of `scrape_custom_sites`
(src/scraper.py line 218): `"/".join(url.split('/')[:3])`, i.e. the
scheme+host prefix of an absolute URL. -/
def base_url (url : String) : String :=
  ⟨joinSlash ((splitSlash url.data).take 3)⟩

example : base_url "https://example.com/jobs?q=x" = "https://example.com" := rfl

/-- The relative-URL resolution of `scrape_custom_sites`
(src/scraper.py lines 218-222): prepend the scheme+host of the request
URL, inserting a slash only when the href does not start with one. -/
def resolveRelative (url href : String) : String :=
  if pyStartsWith href "/" then base_url url ++ href
  else base_url url ++ "/" ++ href

/-- UTF-8 bytes of a code point (as naturals), used by percent-encoding. -/
def utf8Bytes (n : Nat) : List Nat :=
  if n < 0x80 then [n]
  else if n < 0x800 then [0xC0 + n / 64, 0x80 + n % 64]
  else if n < 0x10000 then
    [0xE0 + n / 4096, 0x80 + (n / 64) % 64, 0x80 + n % 64]
  else
    [0xF0 + n / 262144, 0x80 + (n / 4096) % 64, 0x80 + (n / 64) % 64,
     0x80 + n % 64]

/-- Uppercase hexadecimal digit, as used by `urllib.parse.quote`. -/
def hexDigit (n : Nat) : Char :=
  if n < 10 then Char.ofNat (48 + n) else Char.ofNat (55 + n)

/-- Characters `urllib.parse.quote` leaves unescaped: ASCII letters and
digits, `_.-~`, and the default safe character `/`. -/
def isQuoteSafe (c : Char) : Bool :=
  c.isAlpha || c.isDigit || c == '_' || c == '.' || c == '-' || c == '~' || c == '/'

/-- Percent-encodes one character as `urllib.parse.quote` does. -/
def quoteChar (c : Char) : List Char :=
  if isQuoteSafe c then [c]
  else (utf8Bytes c.toNat).flatMap (fun b => ['%', hexDigit (b / 16), hexDigit (b % 16)])

/-- Models `urllib.parse.quote(keyword)`. -/
def pyQuote (s : String) : String := ⟨s.data.flatMap quoteChar⟩

example : pyQuote "software engineer" = "software%20engineer" := rfl

/-- Whether the placeholder `"{keyword}"` occurs in a URL template. -/
def containsKeywordPh : List Char → Bool
  | [] => false
  | c :: rest => "{keyword}".data.isPrefixOf (c :: rest) || containsKeywordPh rest

/-- Replaces every occurrence of `"{keyword}"` (9 characters) by the
quoted keyword; the fuel argument (initially the template length) makes
the recursion structural. -/
def replaceKw (kw : List Char) : Nat → List Char → List Char
  | _, [] => []
  | 0, l => l
  | fuel + 1, c :: rest =>
    if "{keyword}".data.isPrefixOf (c :: rest) then
      kw ++ replaceKw kw fuel (List.drop 8 rest)
    else
      c :: replaceKw kw fuel rest

/-- The request-URL construction of `scrape_custom_sites`
(src/scraper.py lines 182-184): substitute the percent-encoded keyword
into the template when the placeholder is present, else use the template
verbatim. -/
def buildUrl (template keyword : String) : String :=
  if containsKeywordPh template.data then
    ⟨replaceKw (pyQuote keyword).data template.data.length template.data⟩
  else template

example : buildUrl "https://remoteok.com/remote-{keyword}-jobs" "go dev" =
    "https://remoteok.com/remote-go%20dev-jobs" := rfl

example : buildUrl "https://www.remocate.app/" "go" = "https://www.remocate.app/" := rfl

/-- One entry of the `CUSTOM_SITES` configuration: a site descriptor with
URL template and selectors (src/scraper.py lines 34-98). -/
structure SiteDesc where
  name : String
  url : String
  list_selector : String
  list_item_selector : String
  item_url : String

/-- The `CUSTOM_SITES` list (src/scraper.py lines 34-98), verbatim. -/
def CUSTOM_SITES : List SiteDesc :=
  [{ name := "dice",
     url := "https://www.dice.com/jobs?filters.postedDate=THREE&filters.workplaceTypes=Remote&q={keyword}",
     list_selector := "div[role=list]",
     list_item_selector := "div[role=listitem]",
     item_url := "a" },
   { name := "WWR",
     url := "https://weworkremotely.com/remote-jobs/search?term={keyword}&categories%5B%5D=2&categories%5B%5D=17&categories%5B%5D=18",
     list_selector := "section#category-2 > article > ul",
     list_item_selector := "li",
     item_url := "a.listing-link--unlocked" },
   { name := "remoteOk",
     url := "https://remoteok.com/remote-{keyword}-jobs",
     list_selector := "table#jobsboard > tbody",
     list_item_selector := "tr.job",
     item_url := "a.preventLink" },
   { name := "meetfrank",
     url := "https://meetfrank.com/fully-remote-software-engineering-jobs",
     list_selector := "div.dg.di",
     list_item_selector := "div.hY",
     item_url := "a" },
   { name := "workable",
     url := "https://jobs.workable.com/search?location=Lebanon&day_range=7&query={keyword}",
     list_selector := "ul.jobsList__list-container--2L__X",
     list_item_selector := "li",
     item_url := "a" },
   { name := "remocate",
     url := "https://www.remocate.app/",
     list_selector := "div.jobs_section > div.padding-global > div.container-large > div.jobs_wr > div.w-dyn-list > div.board-list",
     list_item_selector := "div.w-dyn-item",
     item_url := "a" },
   { name := "naukrigulf",
     url := "https://www.naukrigulf.com/jobs-in-lebanon?keywords={keyword}",
     list_selector := "div.srp-listing > div.tuple-wrap.opaque-true",
     list_item_selector := "div.ng-box.srp-tuple",
     item_url := "a" },
   { name := "bayt",
     url := "https://www.bayt.com/en/lebanon/jobs/jobs-in-beirut/?q={keyword}",
     list_selector := "div#results_inner_card > ul",
     list_item_selector := "li",
     item_url := "a" },
   { name := "hire lebanese",
     url := "https://www.hirelebanese.com/searchresults.aspx?order=date&keywords={keyword}&category=10&country=117,241,258,259,260",
     list_selector := "table.ListBorder",
     list_item_selector := "tr > td > div.panel > div.panel-heading",
     item_url := "div.panel-title > h4 > a" }]

/-- The link element selected inside one list item: its `href` attribute
(absent when the anchor has none) and its stripped visible text. -/
structure LinkElem where
  href : Option String
  text : String

/-- One repeated item element as selected by `list_item_selector`: the
result of `item.select_one(site["item_url"])` and the item's full
visible text `item.get_text(" | ", strip=True)`. -/
structure SiteItem where
  link : Option LinkElem
  rawText : String

/-- The outcome of the fetch-and-parse of one site inside
`scrape_custom_sites`, modeled as an oracle input: either some exception
was raised inside the per-site `try` (network failure, parse failure),
or a response arrived with an HTTP status and the items the selectors
produce from its parsed markup. -/
inductive SiteFetch where
  | raise
  | resp (status : Nat) (items : List SiteItem)

/-- The `job_url` field computed for one item (src/scraper.py lines
215-222): `link_elem.get('href')` may be absent (`None` is kept); a
non-empty href that does not start with `http` is resolved against the
request URL's scheme+host; an empty or absolute href is kept as is. -/
def resolvedHref (url : String) : Option String → PyVal
  | .none => PyVal.none
  | .some h =>
    if h ≠ "" && !(pyStartsWith h "http") then PyVal.str (resolveRelative url h)
    else PyVal.str h

/-- The per-item body of `scrape_custom_sites` (src/scraper.py lines
208-241): skip the item when the link element is absent; resolve a
relative href against the scheme+host of the request URL; build the job
record with its fixed `company`/`location` sentinels and the trailing
`raw_text` key. -/
def processItem (url : String) (site : SiteDesc) (it : SiteItem) : Option PyVal :=
  match it.link with
  | .none => .none
  | .some le =>
    let job_url : PyVal := resolvedHref url le.href
    .some (PyVal.dict
      [("site", .str site.name),
       ("title", .str le.text),
       ("job_url", job_url),
       ("company", .str "Unknown"),
       ("location", .str "Remote"),
       ("description", PyVal.none),
       ("raw_text", .str it.rawText)])

/-- The per-site body of `scrape_custom_sites` (src/scraper.py lines
179-248): an exception during fetch/parse contributes nothing, a
non-200 status contributes nothing, and otherwise every item with a
link element contributes one job record. -/
def siteScrape (f : SiteFetch) (keyword : String) (site : SiteDesc) : List PyVal :=
  match f with
  | .raise => []
  | .resp status items =>
    if status ≠ 200 then []
    else
      let url := buildUrl site.url keyword
      items.filterMap (processItem url site)

/-- Translation of `scrape_custom_sites` (src/scraper.py lines 170-250):
iterate over `CUSTOM_SITES` in order, appending each site's records; the
fetch oracle is indexed by the site's position in the list (one
`requests.get` call per iteration). -/
def scrape_custom_sites (fetch : Nat → SiteFetch) (keyword : String) : List PyVal :=
  (CUSTOM_SITES.enum).flatMap (fun p => siteScrape (fetch p.1) keyword p.2)

/-- The outcome of the per-keyword `try` block of
`scrape_jobs_by_keyword` (src/scraper.py lines 298-341), modeled as an
oracle for the external structured provider: `raise` when any exception
escapes the block (provider error, pandas error, in-loop sanitizer
error) so that the block contributes nothing, and `ok jobs` for the
record list the block appends (empty when the returned frame is empty).
Records appended on the `ok` path have passed `clean_nan_values` inside
the block, with `description` possibly overwritten afterwards by a
fetched string or `None`. -/
inductive JobspyOutcome where
  | raise
  | ok (jobs : List PyVal)

/-- The records a `JobspyOutcome` adds to `all_jobs`. -/
def jobspyContribution : JobspyOutcome → List PyVal
  | .raise => []
  | .ok jobs => jobs

/-- The merged `all_jobs` list of `scrape_jobs_by_keyword`
(src/scraper.py lines 291-341): for each keyword in order, the custom
site records followed by the structured-provider records. -/
def allJobs (keywords : List String) (fetch : String → Nat → SiteFetch)
    (jobspy : String → JobspyOutcome) : List PyVal :=
  keywords.flatMap (fun kw =>
    scrape_custom_sites (fetch kw) kw ++ jobspyContribution (jobspy kw))

/-- The error response returned on a rejected location
(src/scraper.py lines 280-289).  The truncated country list inside
`message` comes from `list(VALID_COUNTRIES)[:20]`; a Python set's
iteration order is unspecified (hash-randomized), so it is modeled here
by the first twenty entries of the set literal — no claim depends on the
`message` field. -/
def errorResponse (location : String) (keywords : List String) : PyVal :=
  PyVal.dict
    [("status", .str "error"),
     ("error", .str ("Invalid location: '" ++ location ++ "'")),
     ("message", .str ("'" ++ location ++ "' is not a supported location. Valid locations include: " ++
        pyJoin ", " (pySorted (VALID_COUNTRIES.take 20)) ++ "... and more")),
     ("valid_locations", .list ((pySorted VALID_COUNTRIES).map PyVal.str)),
     ("total_jobs", .int 0),
     ("keywords", .list (keywords.map PyVal.str)),
     ("location", .str location),
     ("jobs", .list [])]

/-- Translation of `scrape_jobs_by_keyword` (src/scraper.py lines
253-352): validate the location; on rejection return the error response
directly (it does not pass through `clean_nan_values`); otherwise merge
all per-keyword contributions, assemble the response dict, and sanitize
it.  A `.error` result corresponds to an exception escaping the final
`clean_nan_values` call. -/
def scrape_jobs_by_keyword (keywords : List String) (location : String)
    (fetch : String → Nat → SiteFetch) (jobspy : String → JobspyOutcome) :
    Except PyErr PyVal :=
  let v := validate_location location
  if !v.1 then
    .ok (errorResponse location keywords)
  else
    let all_jobs := allJobs keywords fetch jobspy
    cleanNanValues (PyVal.dict
      [("status", .str (if all_jobs.isEmpty then "no_results" else "success")),
       ("total_jobs", .int all_jobs.length),
       ("keywords", .list (keywords.map PyVal.str)),
       ("location", .str v.2),
       ("jobs", .list all_jobs)])

/-- Python `dict` field access on a response value. -/
def getField (v : PyVal) (k : String) : Option PyVal :=
  match v with
  | .dict kvs => kvs.lookup k
  | _ => Option.none

/-- A value the sanitizer maps to itself. -/
def CleanFixed (v : PyVal) : Prop := cleanNanValues v = .ok v

mutual

/-- A value built only from mappings, (list) sequences, and scalar
leaves — the domain named by the spec for the sanitizer's
JSON-representability guarantee. -/
def structured : PyVal → Bool
  | .dict kvs => structuredPairs kvs
  | .list xs => structuredList xs
  | .tuple _ => false
  | .ndarray _ => false
  | _ => true

def structuredPairs : List (String × PyVal) → Bool
  | [] => true
  | (_, v) :: rest => structured v && structuredPairs rest

def structuredList : List PyVal → Bool
  | [] => true
  | v :: rest => structured v && structuredList rest

end

mutual

/-- No float leaf reachable through mappings, sequences or array-likes
is NaN or infinite. -/
def noBadFloat : PyVal → Bool
  | .float x => !(npIsnan x || npIsinf x)
  | .dict kvs => noBadFloatPairs kvs
  | .list xs => noBadFloatList xs
  | .tuple xs => noBadFloatList xs
  | .ndarray xs => noBadFloatList xs
  | _ => true

def noBadFloatPairs : List (String × PyVal) → Bool
  | [] => true
  | (_, v) :: rest => noBadFloat v && noBadFloatPairs rest

def noBadFloatList : List PyVal → Bool
  | [] => true
  | v :: rest => noBadFloat v && noBadFloatList rest

end

mutual

/-- The exact domain on which `clean_nan_values` terminates normally: no
array-like of size other than one may sit at a position the function
visits (dict values and list elements, recursively; it does not recurse
into tuples). -/
def cleanSafe : PyVal → Bool
  | .dict kvs => cleanSafePairs kvs
  | .list xs => cleanSafeList xs
  | .ndarray xs => decide (xs.length = 1)
  | _ => true

def cleanSafePairs : List (String × PyVal) → Bool
  | [] => true
  | (_, v) :: rest => cleanSafe v && cleanSafePairs rest

def cleanSafeList : List PyVal → Bool
  | [] => true
  | v :: rest => cleanSafe v && cleanSafeList rest

end

/-- A soft per-site failure: the fetch raised, or the response status
was not 200. -/
def siteFails (f : SiteFetch) : Prop :=
  f = SiteFetch.raise ∨ ∃ c items, f = SiteFetch.resp c items ∧ c ≠ 200

/-- A concrete fetch oracle where the first descriptor's request raises
and every other descriptor returns one extractable item. -/
def oFirstRaises : Nat → SiteFetch := fun i =>
  if i = 0 then SiteFetch.raise
  else SiteFetch.resp 200 [⟨some ⟨some "/x", "Title"⟩, "raw"⟩]

theorem cleanElems_length {xs ys : List PyVal} (h : cleanElems xs = .ok ys) :
    ys.length = xs.length := by
  induction xs generalizing ys with
  | nil => simp [cleanElems] at h; simp [← h]
  | cons v rest ih =>
    rw [cleanElems] at h
    cases hv : cleanNanValues v with
    | error e => rw [hv] at h; simp [bind, Except.bind] at h
    | ok v' =>
      rw [hv] at h
      cases hr : cleanElems rest with
      | error e => rw [hr] at h; simp [bind, Except.bind] at h
      | ok rest' =>
        rw [hr] at h
        simp only [bind, Except.bind, Except.ok.injEq] at h
        subst h
        simp [ih hr]

theorem cleanPairs_cons_ok {k : String} {v : PyVal} {rest : List (String × PyVal)}
    {out : List (String × PyVal)} (h : cleanPairs ((k, v) :: rest) = .ok out) :
    ∃ v' rest', cleanNanValues v = .ok v' ∧ cleanPairs rest = .ok rest' ∧
      out = (k, v') :: rest' := by
  rw [cleanPairs] at h
  cases hv : cleanNanValues v with
  | error e => rw [hv] at h; simp [bind, Except.bind] at h
  | ok v' =>
    rw [hv] at h
    cases hr : cleanPairs rest with
    | error e => rw [hr] at h; simp [bind, Except.bind] at h
    | ok rest' =>
      rw [hr] at h
      simp only [bind, Except.bind, Except.ok.injEq] at h
      exact ⟨v', rest', rfl, rfl, h.symm⟩

theorem cleanElems_cons_ok {v : PyVal} {rest out : List PyVal}
    (h : cleanElems (v :: rest) = .ok out) :
    ∃ v' rest', cleanNanValues v = .ok v' ∧ cleanElems rest = .ok rest' ∧
      out = v' :: rest' := by
  rw [cleanElems] at h
  cases hv : cleanNanValues v with
  | error e => rw [hv] at h; simp [bind, Except.bind] at h
  | ok v' =>
    rw [hv] at h
    cases hr : cleanElems rest with
    | error e => rw [hr] at h; simp [bind, Except.bind] at h
    | ok rest' =>
      rw [hr] at h
      simp only [bind, Except.bind, Except.ok.injEq] at h
      exact ⟨v', rest', rfl, rfl, h.symm⟩

mutual

/-- Whatever the sanitizer outputs is a fixed point of the sanitizer. -/
theorem clean_fix : ∀ v w, cleanNanValues v = .ok w → cleanNanValues w = .ok w
  | .dict kvs, w, h => by
    rw [cleanNanValues] at h
    cases hp : cleanPairs kvs with
    | error e => rw [hp] at h; simp [Except.map] at h
    | ok ps =>
      rw [hp] at h
      simp only [Except.map, Except.ok.injEq] at h
      subst h
      rw [cleanNanValues, cleanPairs_fix kvs ps hp]
      rfl
  | .list xs, w, h => by
    rw [cleanNanValues] at h
    cases hp : cleanElems xs with
    | error e => rw [hp] at h; simp [Except.map] at h
    | ok ys =>
      rw [hp] at h
      simp only [Except.map, Except.ok.injEq] at h
      subst h
      rw [cleanNanValues, cleanElems_fix xs ys hp]
      rfl
  | .float x, w, h => by
    rw [cleanNanValues] at h
    cases hb : npIsnan x || npIsinf x with
    | true => rw [hb] at h; simp at h; subst h; rfl
    | false =>
      rw [hb] at h; simp at h; subst h
      rw [cleanNanValues, hb]
      rfl
  | .none, w, h => by
    simp [cleanNanValues, pdIsnaTruthy, Except.map] at h
    subst h; rfl
  | .bool b, w, h => by
    simp [cleanNanValues, pdIsnaTruthy, Except.map] at h
    subst h
    simp [cleanNanValues, pdIsnaTruthy, Except.map]
  | .int n, w, h => by
    simp [cleanNanValues, pdIsnaTruthy, Except.map] at h
    subst h
    simp [cleanNanValues, pdIsnaTruthy, Except.map]
  | .str s, w, h => by
    simp [cleanNanValues, pdIsnaTruthy, Except.map] at h
    subst h
    simp [cleanNanValues, pdIsnaTruthy, Except.map]
  | .tuple xs, w, h => by
    simp [cleanNanValues, pdIsnaTruthy, Except.map] at h
    subst h
    simp [cleanNanValues, pdIsnaTruthy, Except.map]
  | .ndarray xs, w, h => by
    match xs with
    | [x] =>
      cases hx : isnaScalar x with
      | true =>
        simp [cleanNanValues, pdIsnaTruthy, Except.map, hx] at h
        subst h; rfl
      | false =>
        simp [cleanNanValues, pdIsnaTruthy, Except.map, hx] at h
        subst h
        simp [cleanNanValues, pdIsnaTruthy, Except.map, hx]
    | [] => simp [cleanNanValues, pdIsnaTruthy, Except.map] at h
    | x :: y :: rest => simp [cleanNanValues, pdIsnaTruthy, Except.map] at h

/-- Sanitized key/value pair lists are fixed points of `cleanPairs`. -/
theorem cleanPairs_fix : ∀ l l', cleanPairs l = .ok l' → cleanPairs l' = .ok l'
  | [], l', h => by
    rw [cleanPairs] at h
    simp only [Except.ok.injEq] at h
    subst h; rfl
  | (k, v) :: rest, l', h => by
    obtain ⟨v', rest', hv, hr, hout⟩ := cleanPairs_cons_ok h
    subst hout
    rw [cleanPairs, clean_fix v v' hv, cleanPairs_fix rest rest' hr]
    rfl

/-- Sanitized lists are fixed points of `cleanElems`. -/
theorem cleanElems_fix : ∀ l l', cleanElems l = .ok l' → cleanElems l' = .ok l'
  | [], l', h => by
    rw [cleanElems] at h
    simp only [Except.ok.injEq] at h
    subst h; rfl
  | v :: rest, l', h => by
    obtain ⟨v', rest', hv, hr, hout⟩ := cleanElems_cons_ok h
    subst hout
    rw [cleanElems, clean_fix v v' hv, cleanElems_fix rest rest' hr]
    rfl

end

theorem cleanFixed_none : CleanFixed PyVal.none := rfl

theorem cleanFixed_str (s : String) : CleanFixed (PyVal.str s) := rfl

theorem cleanFixed_int (n : Int) : CleanFixed (PyVal.int n) := rfl

theorem cleanElems_of_fixed : ∀ xs : List PyVal,
    (∀ v ∈ xs, CleanFixed v) → cleanElems xs = .ok xs := by
  intro xs h
  induction xs with
  | nil => rfl
  | cons v rest ih =>
    rw [cleanElems, h v (List.mem_cons_self v rest)]
    rw [ih (fun u hu => h u (List.mem_cons_of_mem v hu))]
    rfl

theorem cleanPairs_of_fixed : ∀ kvs : List (String × PyVal),
    (∀ kv ∈ kvs, CleanFixed kv.2) → cleanPairs kvs = .ok kvs := by
  intro kvs h
  induction kvs with
  | nil => rfl
  | cons kv rest ih =>
    obtain ⟨k, v⟩ := kv
    rw [cleanPairs, h (k, v) (List.mem_cons_self (k, v) rest)]
    rw [ih (fun u hu => h u (List.mem_cons_of_mem (k, v) hu))]
    rfl

theorem cleanFixed_list {xs : List PyVal} (h : ∀ v ∈ xs, CleanFixed v) :
    CleanFixed (PyVal.list xs) := by
  show cleanNanValues (PyVal.list xs) = .ok (PyVal.list xs)
  rw [cleanNanValues, cleanElems_of_fixed xs h]
  rfl

theorem cleanFixed_dict {kvs : List (String × PyVal)}
    (h : ∀ kv ∈ kvs, CleanFixed kv.2) : CleanFixed (PyVal.dict kvs) := by
  show cleanNanValues (PyVal.dict kvs) = .ok (PyVal.dict kvs)
  rw [cleanNanValues, cleanPairs_of_fixed kvs h]
  rfl

theorem cleanFixed_strList (l : List String) :
    CleanFixed (PyVal.list (l.map PyVal.str)) := by
  apply cleanFixed_list
  intro v hv
  obtain ⟨s, _, hs⟩ := List.mem_map.1 hv
  rw [← hs]
  exact cleanFixed_str s

theorem cleanFixed_resolvedHref (url : String) (oh : Option String) :
    CleanFixed (resolvedHref url oh) := by
  cases oh with
  | none => exact cleanFixed_none
  | some h =>
    simp only [resolvedHref]
    by_cases hc : (h ≠ "" && !(pyStartsWith h "http")) = true
    · rw [if_pos hc]; exact cleanFixed_str _
    · rw [if_neg hc]; exact cleanFixed_str _

/-- Every record built by `processItem` is a fixed point of the
sanitizer: its values are strings and `None`. -/
theorem processItem_cleanFixed (url : String) (site : SiteDesc) (it : SiteItem)
    (v : PyVal) (h : processItem url site it = some v) : CleanFixed v := by
  unfold processItem at h
  cases hl : it.link with
  | none => rw [hl] at h; exact absurd h (by simp)
  | some le =>
    rw [hl] at h
    simp only [Option.some.injEq] at h
    subst h
    apply cleanFixed_dict
    intro kv hkv
    simp only [List.mem_cons, List.not_mem_nil, or_false] at hkv
    rcases hkv with h1 | h1 | h1 | h1 | h1 | h1 | h1 <;> subst h1 <;>
      first
      | exact cleanFixed_str _
      | exact cleanFixed_none
      | exact cleanFixed_resolvedHref _ _

/-- Every record produced by the custom-site scraper is a fixed point of
the sanitizer. -/
theorem scrape_custom_sites_cleanFixed (fetch : Nat → SiteFetch) (keyword : String)
    (v : PyVal) (h : v ∈ scrape_custom_sites fetch keyword) : CleanFixed v := by
  unfold scrape_custom_sites at h
  obtain ⟨p, _, hp⟩ := List.mem_flatMap.1 h
  cases hf : fetch p.1 with
  | raise =>
    rw [hf] at hp
    simp only [siteScrape] at hp
    exact absurd hp (List.not_mem_nil v)
  | resp status items =>
    rw [hf] at hp
    simp only [siteScrape] at hp
    by_cases hs : status ≠ 200
    · rw [if_pos hs] at hp; exact absurd hp (List.not_mem_nil v)
    · rw [if_neg hs] at hp
      obtain ⟨it, _, hit⟩ := List.mem_filterMap.1 hp
      exact processItem_cleanFixed _ _ _ _ hit


mutual

/-- The sanitizer terminates normally on every `cleanSafe` input. -/
theorem clean_ok_of_cleanSafe : ∀ v, cleanSafe v = true →
    ∃ w, cleanNanValues v = .ok w
  | .dict kvs, h => by
    obtain ⟨ps, hps⟩ := cleanPairs_ok_of_cleanSafe kvs (by
      simpa [cleanSafe] using h)
    exact ⟨.dict ps, by rw [cleanNanValues, hps]; rfl⟩
  | .list xs, h => by
    obtain ⟨ys, hys⟩ := cleanElems_ok_of_cleanSafe xs (by
      simpa [cleanSafe] using h)
    exact ⟨.list ys, by rw [cleanNanValues, hys]; rfl⟩
  | .float x, _ => ⟨_, rfl⟩
  | .none, _ => ⟨_, rfl⟩
  | .bool b, _ => ⟨_, rfl⟩
  | .int n, _ => ⟨_, rfl⟩
  | .str s, _ => ⟨_, rfl⟩
  | .tuple xs, _ => ⟨_, rfl⟩
  | .ndarray xs, h => by
    match xs, h with
    | [x], _ => exact ⟨_, rfl⟩

theorem cleanPairs_ok_of_cleanSafe : ∀ kvs, cleanSafePairs kvs = true →
    ∃ ps, cleanPairs kvs = .ok ps
  | [], _ => ⟨[], rfl⟩
  | (k, v) :: rest, h => by
    rw [cleanSafePairs, Bool.and_eq_true] at h
    obtain ⟨w, hw⟩ := clean_ok_of_cleanSafe v h.1
    obtain ⟨ps, hps⟩ := cleanPairs_ok_of_cleanSafe rest h.2
    exact ⟨(k, w) :: ps, by rw [cleanPairs, hw, hps]; rfl⟩

theorem cleanElems_ok_of_cleanSafe : ∀ xs, cleanSafeList xs = true →
    ∃ ys, cleanElems xs = .ok ys
  | [], _ => ⟨[], rfl⟩
  | v :: rest, h => by
    rw [cleanSafeList, Bool.and_eq_true] at h
    obtain ⟨w, hw⟩ := clean_ok_of_cleanSafe v h.1
    obtain ⟨ys, hys⟩ := cleanElems_ok_of_cleanSafe rest h.2
    exact ⟨w :: ys, by rw [cleanElems, hw, hys]; rfl⟩

end

mutual

/-- On the mappings/sequences/scalars domain the sanitizer terminates
normally and its output stays in the domain and contains no NaN or
infinite float leaf. -/
theorem clean_structured : ∀ v, structured v = true →
    ∃ w, cleanNanValues v = .ok w ∧ structured w = true ∧ noBadFloat w = true
  | .dict kvs, h => by
    obtain ⟨ps, hps, hs, hb⟩ := cleanPairs_structured kvs (by
      simpa [structured] using h)
    exact ⟨.dict ps, by rw [cleanNanValues, hps]; rfl,
      by simpa [structured] using hs, by simpa [noBadFloat] using hb⟩
  | .list xs, h => by
    obtain ⟨ys, hys, hs, hb⟩ := cleanElems_structured xs (by
      simpa [structured] using h)
    exact ⟨.list ys, by rw [cleanNanValues, hys]; rfl,
      by simpa [structured] using hs, by simpa [noBadFloat] using hb⟩
  | .float x, _ => by
    cases hb : npIsnan x || npIsinf x with
    | true =>
      refine ⟨.none, ?_, rfl, rfl⟩
      rw [cleanNanValues, hb]
      rfl
    | false =>
      refine ⟨.float x, ?_, rfl, ?_⟩
      · rw [cleanNanValues, hb]; rfl
      · simpa [noBadFloat] using hb
  | .none, _ => ⟨_, rfl, rfl, rfl⟩
  | .bool b, _ => ⟨_, rfl, rfl, rfl⟩
  | .int n, _ => ⟨_, rfl, rfl, rfl⟩
  | .str s, _ => ⟨_, rfl, rfl, rfl⟩

theorem cleanPairs_structured : ∀ kvs, structuredPairs kvs = true →
    ∃ ps, cleanPairs kvs = .ok ps ∧ structuredPairs ps = true ∧
      noBadFloatPairs ps = true
  | [], _ => ⟨[], rfl, rfl, rfl⟩
  | (k, v) :: rest, h => by
    rw [structuredPairs, Bool.and_eq_true] at h
    obtain ⟨w, hw, hws, hwb⟩ := clean_structured v h.1
    obtain ⟨ps, hps, hss, hsb⟩ := cleanPairs_structured rest h.2
    refine ⟨(k, w) :: ps, by rw [cleanPairs, hw, hps]; rfl, ?_, ?_⟩
    · rw [structuredPairs, Bool.and_eq_true]; exact ⟨hws, hss⟩
    · rw [noBadFloatPairs, Bool.and_eq_true]; exact ⟨hwb, hsb⟩

theorem cleanElems_structured : ∀ xs, structuredList xs = true →
    ∃ ys, cleanElems xs = .ok ys ∧ structuredList ys = true ∧
      noBadFloatList ys = true
  | [], _ => ⟨[], rfl, rfl, rfl⟩
  | v :: rest, h => by
    rw [structuredList, Bool.and_eq_true] at h
    obtain ⟨w, hw, hws, hwb⟩ := clean_structured v h.1
    obtain ⟨ys, hys, hss, hsb⟩ := cleanElems_structured rest h.2
    refine ⟨w :: ys, by rw [cleanElems, hw, hys]; rfl, ?_, ?_⟩
    · rw [structuredList, Bool.and_eq_true]; exact ⟨hws, hss⟩
    · rw [noBadFloatList, Bool.and_eq_true]; exact ⟨hwb, hsb⟩

end

/-- The validator's definition with its local variable expanded. -/
theorem validate_location_eq (s : String) :
    validate_location s =
      if ((pyStrip (pyLower s) = "remote" || pyStrip (pyLower s) = "worldwide" : Bool))
      then (true, pyCapitalize (pyStrip (pyLower s))) else (false, s) := rfl

theorem validate_cond_iff (s : String) :
    ((pyStrip (pyLower s) = "remote" || pyStrip (pyLower s) = "worldwide" : Bool)) = true ↔
      (pyStrip (pyLower s) = "remote" ∨ pyStrip (pyLower s) = "worldwide") := by
  simp

/-- The pipeline's definition with its local variables expanded. -/
theorem scrape_jobs_by_keyword_eq (keywords : List String) (location : String)
    (fetch : String → Nat → SiteFetch) (jobspy : String → JobspyOutcome) :
    scrape_jobs_by_keyword keywords location fetch jobspy =
      if (!(validate_location location).1) = true then
        .ok (errorResponse location keywords)
      else
        cleanNanValues (PyVal.dict
          [("status", .str (if (allJobs keywords fetch jobspy).isEmpty then "no_results" else "success")),
           ("total_jobs", .int ((allJobs keywords fetch jobspy).length : Int)),
           ("keywords", .list (keywords.map PyVal.str)),
           ("location", .str (validate_location location).2),
           ("jobs", .list (allJobs keywords fetch jobspy))]) := rfl

theorem clean_str_eq (s : String) :
    cleanNanValues (.str s) = .ok (.str s) := rfl

theorem clean_int_eq (n : Int) :
    cleanNanValues (.int n) = .ok (.int n) := rfl

theorem clean_strList_eq (l : List String) :
    cleanNanValues (.list (l.map PyVal.str)) = .ok (.list (l.map PyVal.str)) :=
  cleanFixed_strList l

theorem clean_dict_ok {L : List (String × PyVal)} {r : PyVal}
    (h : cleanNanValues (.dict L) = .ok r) :
    ∃ ps, cleanPairs L = .ok ps ∧ r = .dict ps := by
  rw [cleanNanValues] at h
  cases hp : cleanPairs L with
  | error e => rw [hp] at h; simp [Except.map] at h
  | ok ps =>
    rw [hp] at h
    simp only [Except.map, Except.ok.injEq] at h
    exact ⟨ps, rfl, h.symm⟩

theorem clean_list_ok {xs : List PyVal} {r : PyVal}
    (h : cleanNanValues (.list xs) = .ok r) :
    ∃ ys, cleanElems xs = .ok ys ∧ r = .list ys := by
  rw [cleanNanValues] at h
  cases hy : cleanElems xs with
  | error e => rw [hy] at h; simp [Except.map] at h
  | ok ys =>
    rw [hy] at h
    simp only [Except.map, Except.ok.injEq] at h
    exact ⟨ys, rfl, h.symm⟩

/-- On a validated location, the pipeline's result is the assembled
response dict with its `jobs` list replaced by the sanitized elements;
all other fields are sanitizer fixed points and survive unchanged. -/
theorem scrape_valid_shape (keywords : List String) (location : String)
    (fetch : String → Nat → SiteFetch) (jobspy : String → JobspyOutcome)
    (r : PyVal) (hv : (validate_location location).1 = true)
    (h : scrape_jobs_by_keyword keywords location fetch jobspy = .ok r) :
    ∃ ys, cleanElems (allJobs keywords fetch jobspy) = .ok ys ∧
      r = PyVal.dict
        [("status", .str (if (allJobs keywords fetch jobspy).isEmpty then "no_results" else "success")),
         ("total_jobs", .int ((allJobs keywords fetch jobspy).length : Int)),
         ("keywords", .list (keywords.map PyVal.str)),
         ("location", .str (validate_location location).2),
         ("jobs", .list ys)] := by
  rw [scrape_jobs_by_keyword_eq, hv] at h
  rw [if_neg (by simp)] at h
  obtain ⟨ps, hp, hr⟩ := clean_dict_ok h
  obtain ⟨v1, r1, hv1, hr1, he1⟩ := cleanPairs_cons_ok hp
  obtain ⟨v2, r2, hv2, hr2, he2⟩ := cleanPairs_cons_ok hr1
  obtain ⟨v3, r3, hv3, hr3, he3⟩ := cleanPairs_cons_ok hr2
  obtain ⟨v4, r4, hv4, hr4, he4⟩ := cleanPairs_cons_ok hr3
  obtain ⟨v5, r5, hv5, hr5, he5⟩ := cleanPairs_cons_ok hr4
  rw [clean_str_eq] at hv1 hv4
  rw [clean_int_eq] at hv2
  rw [clean_strList_eq keywords] at hv3
  rw [cleanPairs] at hr5
  simp only [Except.ok.injEq] at hv1 hv2 hv3 hv4 hr5
  obtain ⟨ys, hy, hv5'⟩ := clean_list_ok hv5
  subst hr he1 he2 he3 he4 he5 hv5'
  rw [← hv1, ← hv2, ← hv3, ← hv4, ← hr5]
  exact ⟨ys, hy, rfl⟩

/-- C2 counterexample: a NumPy array cell with two elements reaches the
`elif pd.isna(data):` test of `clean_nan_values`, where the elementwise
result used as a condition raises `ValueError` — `clean_nan_values` is
not total on arbitrary objects. -/
theorem claim2_counterexample :
    cleanNanValues (.ndarray [.float (.finite 1), .float (.finite 2)]) =
      .error .valueError := rfl

/-- C2 (amended): `clean_nan_values` is total on every input whose
visited positions (dict values and list elements, recursively) contain
no array-like of size other than one — in particular on everything
built from mappings, list sequences, scalar leaves, and tuples. -/
theorem claim2_sanitizer_total (v : PyVal) (h : cleanSafe v = true) :
    ∃ w, cleanNanValues v = .ok w :=
  clean_ok_of_cleanSafe v h

/-- C2 witness: the sanitizer terminates normally on a nested value
containing NaN, infinity, and a NaN-bearing tuple leaf. -/
theorem claim2_witness :
    cleanSafe (.dict [("a", .float .nan), ("b", .list [.float .inf, .tuple [.float .nan]])]) = true ∧
    ∃ w, cleanNanValues
      (.dict [("a", .float .nan), ("b", .list [.float .inf, .tuple [.float .nan]])]) = .ok w :=
  ⟨rfl, claim2_sanitizer_total _ rfl⟩

/-- C8: the sanitizer is idempotent — whenever `clean_nan_values x`
returns a value `y`, applying it to `y` returns `y` again. -/
theorem claim8_sanitizer_idempotent (x y : PyVal)
    (h : cleanNanValues x = .ok y) : cleanNanValues y = .ok y :=
  clean_fix x y h

/-- C8 witness: idempotence evaluated on a dict containing a NaN leaf. -/
theorem claim8_witness :
    cleanNanValues (.dict [("a", .float .nan), ("b", .int 3)]) =
      .ok (.dict [("a", PyVal.none), ("b", .int 3)]) ∧
    cleanNanValues (.dict [("a", PyVal.none), ("b", .int 3)]) =
      .ok (.dict [("a", PyVal.none), ("b", .int 3)]) :=
  ⟨rfl, claim8_sanitizer_idempotent (.dict [("a", .float .nan), ("b", .int 3)]) _ rfl⟩

/-- C6 counterexample: `"usa"` is a country name in the accepted-location
set `VALID_COUNTRIES`, yet `validate_location` rejects it (the country
membership test is commented out in the source). -/
theorem claim6_counterexample :
    validate_location "usa" = (false, "usa") ∧ "usa" ∈ VALID_COUNTRIES :=
  ⟨rfl, by decide⟩

/-- C6 (amended): a location is accepted iff its lowercased, trimmed form
is one of the two sentinels `"remote"`/`"worldwide"`; an accepted value
normalizes to the capitalized sentinel, and every other value — country
and region names included — is rejected and echoed verbatim, so there
are no accepted non-sentinel values. -/
theorem claim6_accepted_set :
    (∀ s, (validate_location s).1 = true ↔
      (pyStrip (pyLower s) = "remote" ∨ pyStrip (pyLower s) = "worldwide")) ∧
    (∀ s, (validate_location s).1 = true →
      (validate_location s).2 = pyCapitalize (pyStrip (pyLower s))) ∧
    (∀ s, (validate_location s).1 = false → (validate_location s).2 = s) := by
  refine ⟨fun s => ?_, fun s h => ?_, fun s h => ?_⟩
  · rw [validate_location_eq]
    by_cases hc : ((pyStrip (pyLower s) = "remote" || pyStrip (pyLower s) = "worldwide" : Bool)) = true
    · rw [if_pos hc]
      simpa using (validate_cond_iff s).1 hc
    · rw [if_neg hc]
      simpa using fun hd => hc ((validate_cond_iff s).2 hd)
  · rw [validate_location_eq] at h ⊢
    by_cases hc : ((pyStrip (pyLower s) = "remote" || pyStrip (pyLower s) = "worldwide" : Bool)) = true
    · rw [if_pos hc]
    · rw [if_neg hc] at h
      exact absurd h (by simp)
  · rw [validate_location_eq] at h ⊢
    by_cases hc : ((pyStrip (pyLower s) = "remote" || pyStrip (pyLower s) = "worldwide" : Bool)) = true
    · rw [if_pos hc] at h
      exact absurd h (by simp)
    · rw [if_neg hc]

/-- C6 witness: the amended statement evaluated at `"remote"` (accepted,
capitalized) and at the country name `"usa"` (rejected, echoed). -/
theorem claim6_witness :
    (validate_location "remote").1 = true ∧ (validate_location "usa").2 = "usa" :=
  ⟨(claim6_accepted_set.1 "remote").2 (Or.inl rfl),
   claim6_accepted_set.2.2 "usa" rfl⟩

/-- C7: every casing/whitespace variant of the sentinels is accepted and
normalized to exactly `"Remote"` resp. `"Worldwide"`, and a response for
a validated location carries the normalized value in its `location`
field. -/
theorem claim7_sentinel_normalization :
    (∀ s, pyStrip (pyLower s) = "remote" → validate_location s = (true, "Remote")) ∧
    (∀ s, pyStrip (pyLower s) = "worldwide" → validate_location s = (true, "Worldwide")) ∧
    (∀ keywords s fetch jobspy r, (validate_location s).1 = true →
      scrape_jobs_by_keyword keywords s fetch jobspy = .ok r →
      getField r "location" = some (.str (validate_location s).2)) := by
  refine ⟨fun s h => ?_, fun s h => ?_, ?_⟩
  · rw [validate_location_eq, h]
    rfl
  · rw [validate_location_eq, h]
    rfl
  · intro keywords s fetch jobspy r hv h
    obtain ⟨ys, _, hr⟩ := scrape_valid_shape keywords s fetch jobspy r hv h
    subst hr
    rfl

/-- C7 witness: `"  WORLDWIDE "` normalizes to `"Worldwide"`, and a
pipeline run for the validated location `" remote "` carries `"Remote"`
in its `location` field. -/
theorem claim7_witness :
    validate_location "  WORLDWIDE " = (true, "Worldwide") ∧
    getField
      (PyVal.dict
        [("status", .str "no_results"), ("total_jobs", .int 0),
         ("keywords", .list [PyVal.str "python"]), ("location", .str "Remote"),
         ("jobs", .list [])])
      "location" = some (.str "Remote") :=
  ⟨claim7_sentinel_normalization.2.1 "  WORLDWIDE " rfl,
   claim7_sentinel_normalization.2.2 ["python"] " remote "
     (fun _ _ => SiteFetch.raise) (fun _ => JobspyOutcome.ok []) _ rfl rfl⟩

/-- C9: an item whose extracted href is relative (non-empty, not
starting with `http`) gets as `job_url` the scheme+host of the request
URL — `"/".join(url.split('/')[:3])` — joined with the href, inserting a
separating slash only when the href does not start with one; on the
spec's example the base is `https://example.com` and the resolved URL is
`https://example.com/post/123`. -/
theorem claim9_relative_url_resolution :
    (∀ url site it le h, it.link = some le → le.href = some h → h ≠ "" →
      pyStartsWith h "http" = false →
      ∃ j, processItem url site it = some j ∧
        getField j "job_url" =
          some (.str (base_url url ++ (if pyStartsWith h "/" then h else "/" ++ h)))) ∧
    base_url "https://example.com/jobs?q=x" = "https://example.com" ∧
    resolveRelative "https://example.com/jobs?q=x" "/post/123" =
      "https://example.com/post/123" := by
  refine ⟨?_, rfl, rfl⟩
  intro url site it le h hl hh hne hpre
  refine ⟨PyVal.dict
      [("site", .str site.name), ("title", .str le.text),
       ("job_url", resolvedHref url le.href), ("company", .str "Unknown"),
       ("location", .str "Remote"), ("description", PyVal.none),
       ("raw_text", .str it.rawText)], ?_, ?_⟩
  · unfold processItem
    rw [hl]
  · have : resolvedHref url le.href =
        .str (base_url url ++ (if pyStartsWith h "/" then h else "/" ++ h)) := by
      rw [hh]
      simp only [resolvedHref]
      rw [if_pos (by simp [hne, hpre])]
      unfold resolveRelative
      by_cases hs : pyStartsWith h "/" = true
      · rw [if_pos hs, if_pos hs]
      · rw [if_neg hs, if_neg hs, String.append_assoc]
    rw [this]
    rfl

/-- C9 witness: the spec's example item, resolved through `processItem`
on the example request URL. -/
theorem claim9_witness :
    ∃ j, processItem "https://example.com/jobs?q=x" (CUSTOM_SITES.get ⟨0, by decide⟩)
        ⟨some ⟨some "/post/123", "A title"⟩, "raw"⟩ = some j ∧
      getField j "job_url" =
        some (.str (base_url "https://example.com/jobs?q=x" ++
          (if pyStartsWith "/post/123" "/" then "/post/123" else "/" ++ "/post/123"))) :=
  claim9_relative_url_resolution.1 "https://example.com/jobs?q=x" _ _ _ _
    rfl rfl (by decide) (by decide)

/-- C10: the `valid_locations` list advertised by the error response is
the sorted `VALID_COUNTRIES` list, and every entry in it except
`"worldwide"` is itself rejected by `validate_location` (and echoed
verbatim) — membership in the advertised list does not imply acceptance. -/
theorem claim10_advertised_locations_rejected :
    (∀ location keywords, getField (errorResponse location keywords) "valid_locations" =
      some (.list ((pySorted VALID_COUNTRIES).map PyVal.str))) ∧
    (∀ c ∈ pySorted VALID_COUNTRIES, c ≠ "worldwide" →
      validate_location c = (false, c)) :=
  ⟨fun _ _ => rfl, by decide⟩

/-- C10 witness: `"usa"` appears in the advertised sorted list and is
rejected. -/
theorem claim10_witness : validate_location "usa" = (false, "usa") :=
  claim10_advertised_locations_rejected.2 "usa" (by decide) (by decide)


theorem siteScrape_of_fails {f : SiteFetch} (keyword : String) (site : SiteDesc)
    (h : siteFails f) : siteScrape f keyword site = [] := by
  rcases h with h | ⟨c, items, h, hc⟩
  · rw [h]; rfl
  · rw [h]
    simp only [siteScrape]
    rw [if_pos hc]

/-- C3: failures are isolated per site descriptor — when the fetch for
descriptor `j` raises or returns a non-200 status, the batch result is
the concatenation in which descriptor `j` contributes the empty list
while every other descriptor contributes exactly what it would under the
unchanged oracle.  (The embedding of `scrape_custom_sites` is a total
function into lists: no oracle outcome produces an exception.) -/
theorem claim3_per_site_isolation (o o' : Nat → SiteFetch) (keyword : String)
    (j : Nat) (hfail : siteFails (o' j)) (hagree : ∀ i, i ≠ j → o' i = o i) :
    scrape_custom_sites o' keyword =
      ((CUSTOM_SITES.enum).map
        (fun p => if p.1 = j then [] else siteScrape (o p.1) keyword p.2)).flatten := by
  have aux : ∀ sites : List (Nat × SiteDesc),
      sites.flatMap (fun p => siteScrape (o' p.1) keyword p.2) =
      (sites.map (fun p => if p.1 = j then [] else siteScrape (o p.1) keyword p.2)).flatten := by
    intro sites
    induction sites with
    | nil => rfl
    | cons p rest ih =>
      rw [List.flatMap_cons, List.map_cons, List.flatten_cons, ih]
      congr 1
      by_cases hp : p.1 = j
      · rw [if_pos hp, hp, siteScrape_of_fails keyword p.2 hfail]
      · rw [if_neg hp, hagree p.1 hp]
  exact aux CUSTOM_SITES.enum

/-- C3 witness: with the first descriptor's fetch raising and all others
returning one extractable item, the batch equals the per-site
concatenation with an empty first contribution. -/
theorem claim3_witness :
    scrape_custom_sites oFirstRaises "python" =
      ((CUSTOM_SITES.enum).map
        (fun p => if p.1 = 0 then []
          else siteScrape (oFirstRaises p.1) "python" p.2)).flatten :=
  claim3_per_site_isolation oFirstRaises oFirstRaises "python" 0
    (Or.inl rfl) (fun _ _ => rfl)

theorem allJobs_mem_fixed (keywords : List String) (fetch : String → Nat → SiteFetch)
    (jobspy : String → JobspyOutcome)
    (hjo : ∀ kw l, jobspy kw = JobspyOutcome.ok l → ∀ v ∈ l, cleanNanValues v = .ok v) :
    ∀ v ∈ allJobs keywords fetch jobspy, CleanFixed v := by
  intro v hv
  unfold allJobs at hv
  obtain ⟨kw, _, hm⟩ := List.mem_flatMap.1 hv
  rcases List.mem_append.1 hm with hm | hm
  · exact scrape_custom_sites_cleanFixed _ _ _ hm
  · cases hj : jobspy kw with
    | raise => rw [hj] at hm; exact absurd hm (List.not_mem_nil v)
    | ok l =>
      rw [hj] at hm
      exact hjo kw l hj v hm

theorem structuredPairs_iff (kvs : List (String × PyVal)) :
    structuredPairs kvs = true ↔ ∀ kv ∈ kvs, structured kv.2 = true := by
  induction kvs with
  | nil => simp [structuredPairs]
  | cons kv rest ih =>
    obtain ⟨k, v⟩ := kv
    rw [structuredPairs, Bool.and_eq_true, ih]
    simp

theorem structuredList_iff (xs : List PyVal) :
    structuredList xs = true ↔ ∀ v ∈ xs, structured v = true := by
  induction xs with
  | nil => simp [structuredList]
  | cons v rest ih =>
    rw [structuredList, Bool.and_eq_true, ih]
    simp

theorem structured_str (s : String) : structured (.str s) = true := rfl

theorem structured_resolvedHref (url : String) (oh : Option String) :
    structured (resolvedHref url oh) = true := by
  cases oh with
  | none => rfl
  | some h =>
    simp only [resolvedHref]
    by_cases hc : (h ≠ "" && !(pyStartsWith h "http")) = true
    · rw [if_pos hc]; rfl
    · rw [if_neg hc]; rfl

theorem structuredList_strMap (l : List String) :
    structuredList (l.map PyVal.str) = true := by
  induction l with
  | nil => rfl
  | cons s rest ih => rw [List.map_cons, structuredList, ih, structured_str]; rfl

theorem noBadFloatList_strMap (l : List String) :
    noBadFloatList (l.map PyVal.str) = true := by
  induction l with
  | nil => rfl
  | cons s rest ih => rw [List.map_cons, noBadFloatList, ih]; rfl

theorem processItem_structured (url : String) (site : SiteDesc) (it : SiteItem)
    (v : PyVal) (h : processItem url site it = some v) : structured v = true := by
  unfold processItem at h
  cases hl : it.link with
  | none => rw [hl] at h; exact absurd h (by simp)
  | some le =>
    rw [hl] at h
    simp only [Option.some.injEq] at h
    subst h
    rw [show structured (PyVal.dict _) = structuredPairs _ from rfl]
    rw [structuredPairs_iff]
    intro kv hkv
    simp only [List.mem_cons, List.not_mem_nil, or_false] at hkv
    rcases hkv with h1 | h1 | h1 | h1 | h1 | h1 | h1 <;> subst h1 <;>
      first
      | exact structured_str _
      | rfl
      | exact structured_resolvedHref _ _

theorem scrape_custom_sites_structured (fetch : Nat → SiteFetch) (keyword : String)
    (v : PyVal) (h : v ∈ scrape_custom_sites fetch keyword) : structured v = true := by
  unfold scrape_custom_sites at h
  obtain ⟨p, _, hp⟩ := List.mem_flatMap.1 h
  cases hf : fetch p.1 with
  | raise =>
    rw [hf] at hp
    simp only [siteScrape] at hp
    exact absurd hp (List.not_mem_nil v)
  | resp status items =>
    rw [hf] at hp
    simp only [siteScrape] at hp
    by_cases hs : status ≠ 200
    · rw [if_pos hs] at hp; exact absurd hp (List.not_mem_nil v)
    · rw [if_neg hs] at hp
      obtain ⟨it, _, hit⟩ := List.mem_filterMap.1 hp
      exact processItem_structured _ _ _ _ hit

theorem allJobs_mem_structured (keywords : List String)
    (fetch : String → Nat → SiteFetch) (jobspy : String → JobspyOutcome)
    (hjs : ∀ kw l, jobspy kw = JobspyOutcome.ok l → ∀ v ∈ l, structured v = true) :
    ∀ v ∈ allJobs keywords fetch jobspy, structured v = true := by
  intro v hv
  unfold allJobs at hv
  obtain ⟨kw, _, hm⟩ := List.mem_flatMap.1 hv
  rcases List.mem_append.1 hm with hm | hm
  · exact scrape_custom_sites_structured _ _ _ hm
  · cases hj : jobspy kw with
    | raise => rw [hj] at hm; exact absurd hm (List.not_mem_nil v)
    | ok l =>
      rw [hj] at hm
      exact hjs kw l hj v hm

theorem getField_cons_self (k : String) (v : PyVal)
    (rest : List (String × PyVal)) :
    getField (PyVal.dict ((k, v) :: rest)) k = some v := by
  simp [getField, List.lookup]

/-- C5: in every response the pipeline returns — error, no-results, or
success — the `total_jobs` field equals the length of the `jobs` list;
in particular the final sanitization pass preserves the length of
`jobs`. -/
theorem claim5_total_jobs_consistent (keywords : List String) (location : String)
    (fetch : String → Nat → SiteFetch) (jobspy : String → JobspyOutcome) (r : PyVal)
    (h : scrape_jobs_by_keyword keywords location fetch jobspy = .ok r) :
    ∃ (n : Int) (l : List PyVal), getField r "total_jobs" = some (.int n) ∧
      getField r "jobs" = some (.list l) ∧ n = (l.length : Int) := by
  by_cases hv : (validate_location location).1 = true
  · obtain ⟨ys, hy, hr⟩ := scrape_valid_shape keywords location fetch jobspy r hv h
    subst hr
    refine ⟨((allJobs keywords fetch jobspy).length : Int), ys, rfl, rfl, ?_⟩
    rw [cleanElems_length hy]
  · rw [scrape_jobs_by_keyword_eq] at h
    rw [Bool.not_eq_true] at hv
    rw [hv] at h
    simp only [Bool.not_false, if_true, Except.ok.injEq] at h
    subst h
    exact ⟨0, [], rfl, rfl, rfl⟩

/-- C5 witness: evaluated on a concrete rejected-location run, whose
response is the error response with `total_jobs = 0` and `jobs = []`. -/
theorem claim5_witness :
    ∃ (n : Int) (l : List PyVal),
      getField (errorResponse "Atlantis" ["python"]) "total_jobs" = some (.int n) ∧
      getField (errorResponse "Atlantis" ["python"]) "jobs" = some (.list l) ∧
      n = (l.length : Int) :=
  claim5_total_jobs_consistent ["python"] "Atlantis"
    (fun _ _ => SiteFetch.raise) (fun _ => JobspyOutcome.ok []) _ rfl

/-- C1: the returned status is `"error"` iff `validate_location` rejected
the input (and then `jobs` is empty, `location` echoes the exact input,
and `valid_locations` is the sorted accepted-location list); it is
`"no_results"` iff validation passed and no source contributed a record;
it is `"success"` iff validation passed and some source contributed.
Every request yields a structured response (`.ok`), never an exception,
given that the structured-provider records went through the in-loop
sanitizer (which the source guarantees on the `ok` path). -/
theorem claim1_status_classification (keywords : List String) (location : String)
    (fetch : String → Nat → SiteFetch) (jobspy : String → JobspyOutcome)
    (hjo : ∀ kw l, jobspy kw = JobspyOutcome.ok l → ∀ v ∈ l, cleanNanValues v = .ok v) :
    ∃ r, scrape_jobs_by_keyword keywords location fetch jobspy = .ok r ∧
      (getField r "status" = some (.str "error") ↔
        (validate_location location).1 = false) ∧
      (getField r "status" = some (.str "no_results") ↔
        (validate_location location).1 = true ∧ allJobs keywords fetch jobspy = []) ∧
      (getField r "status" = some (.str "success") ↔
        (validate_location location).1 = true ∧ allJobs keywords fetch jobspy ≠ []) ∧
      ((validate_location location).1 = false →
        getField r "jobs" = some (.list []) ∧
        getField r "location" = some (.str location) ∧
        getField r "valid_locations" =
          some (.list ((pySorted VALID_COUNTRIES).map PyVal.str))) := by
  by_cases hv : (validate_location location).1 = true
  · have hfix : ∀ v ∈ allJobs keywords fetch jobspy, CleanFixed v :=
      allJobs_mem_fixed keywords fetch jobspy hjo
    refine ⟨PyVal.dict
      [("status", .str (if (allJobs keywords fetch jobspy).isEmpty then "no_results" else "success")),
       ("total_jobs", .int ((allJobs keywords fetch jobspy).length : Int)),
       ("keywords", .list (keywords.map PyVal.str)),
       ("location", .str (validate_location location).2),
       ("jobs", .list (allJobs keywords fetch jobspy))], ?_, ?_, ?_, ?_, ?_⟩
    · rw [scrape_jobs_by_keyword_eq, hv]
      rw [if_neg (by simp)]
      apply cleanFixed_dict
      intro kv hkv
      simp only [List.mem_cons, List.not_mem_nil, or_false] at hkv
      rcases hkv with h1 | h1 | h1 | h1 | h1 <;> subst h1 <;>
        first
        | exact cleanFixed_str _
        | exact cleanFixed_int _
        | exact cleanFixed_strList _
        | exact cleanFixed_list hfix
    · rw [getField_cons_self]
      constructor
      · intro hs
        by_cases he : (allJobs keywords fetch jobspy).isEmpty = true
        · rw [if_pos he] at hs
          simp only [Option.some.injEq, PyVal.str.injEq] at hs
          exact absurd hs (by decide)
        · rw [if_neg he] at hs
          simp only [Option.some.injEq, PyVal.str.injEq] at hs
          exact absurd hs (by decide)
      · intro hs
        rw [hv] at hs
        exact absurd hs (by decide)
    · rw [getField_cons_self]
      by_cases he : (allJobs keywords fetch jobspy).isEmpty = true
      · have he' : allJobs keywords fetch jobspy = [] := List.isEmpty_iff.1 he
        rw [if_pos he]
        exact iff_of_true rfl ⟨hv, he'⟩
      · have he' : allJobs keywords fetch jobspy ≠ [] := by
          intro hn
          exact he (by rw [hn]; rfl)
        rw [if_neg he]
        apply iff_of_false
        · simp only [Option.some.injEq, PyVal.str.injEq]
          exact (by decide : ¬ ("success" : String) = "no_results")
        · rintro ⟨_, hn⟩
          exact he' hn
    · rw [getField_cons_self]
      by_cases he : (allJobs keywords fetch jobspy).isEmpty = true
      · have he' : allJobs keywords fetch jobspy = [] := List.isEmpty_iff.1 he
        rw [if_pos he]
        apply iff_of_false
        · simp only [Option.some.injEq, PyVal.str.injEq]
          exact (by decide : ¬ ("no_results" : String) = "success")
        · rintro ⟨_, hn⟩
          exact hn he'
      · have he' : allJobs keywords fetch jobspy ≠ [] := by
          intro hn
          exact he (by rw [hn]; rfl)
        rw [if_neg he]
        exact iff_of_true rfl ⟨hv, he'⟩
    · intro hf
      rw [hv] at hf
      exact absurd hf (by decide)
  · rw [Bool.not_eq_true] at hv
    refine ⟨errorResponse location keywords, ?_, ?_, ?_, ?_, ?_⟩
    · rw [scrape_jobs_by_keyword_eq, hv]
      rfl
    · exact iff_of_true rfl hv
    · apply iff_of_false
      · intro hs
        have : getField (errorResponse location keywords) "status" = some (.str "error") := rfl
        rw [this] at hs
        simp only [Option.some.injEq, PyVal.str.injEq] at hs
        exact absurd hs (by decide)
      · rintro ⟨h1, _⟩
        rw [hv] at h1
        exact absurd h1 (by decide)
    · apply iff_of_false
      · intro hs
        have : getField (errorResponse location keywords) "status" = some (.str "error") := rfl
        rw [this] at hs
        simp only [Option.some.injEq, PyVal.str.injEq] at hs
        exact absurd hs (by decide)
      · rintro ⟨h1, _⟩
        rw [hv] at h1
        exact absurd h1 (by decide)
    · intro _
      exact ⟨rfl, rfl, rfl⟩

/-- C1 witness: a concrete rejected-location request, with sources that
contribute nothing. -/
theorem claim1_witness :
    ∃ r, scrape_jobs_by_keyword ["python"] "Atlantis" (fun _ _ => SiteFetch.raise)
        (fun _ => JobspyOutcome.ok []) = .ok r ∧
      (getField r "status" = some (.str "error") ↔
        (validate_location "Atlantis").1 = false) ∧
      (getField r "status" = some (.str "no_results") ↔
        (validate_location "Atlantis").1 = true ∧
          allJobs ["python"] (fun _ _ => SiteFetch.raise) (fun _ => JobspyOutcome.ok []) = []) ∧
      (getField r "status" = some (.str "success") ↔
        (validate_location "Atlantis").1 = true ∧
          allJobs ["python"] (fun _ _ => SiteFetch.raise) (fun _ => JobspyOutcome.ok []) ≠ []) ∧
      ((validate_location "Atlantis").1 = false →
        getField r "jobs" = some (.list []) ∧
        getField r "location" = some (.str "Atlantis") ∧
        getField r "valid_locations" =
          some (.list ((pySorted VALID_COUNTRIES).map PyVal.str))) :=
  claim1_status_classification ["python"] "Atlantis" (fun _ _ => SiteFetch.raise)
    (fun _ => JobspyOutcome.ok [])
    (by rintro kw l hl v hv; cases hl; cases hv)

theorem structured_int (n : Int) : structured (.int n) = true := rfl

theorem structured_list_eq (xs : List PyVal) :
    structured (.list xs) = structuredList xs := rfl

theorem structured_dict_eq (kvs : List (String × PyVal)) :
    structured (.dict kvs) = structuredPairs kvs := rfl

theorem noBadFloat_str (s : String) : noBadFloat (.str s) = true := rfl

theorem noBadFloat_int (n : Int) : noBadFloat (.int n) = true := rfl

theorem noBadFloat_list_eq (xs : List PyVal) :
    noBadFloat (.list xs) = noBadFloatList xs := rfl

theorem noBadFloat_dict_eq (kvs : List (String × PyVal)) :
    noBadFloat (.dict kvs) = noBadFloatPairs kvs := rfl

/-- C4: on inputs built from mappings, (list) sequences and scalar
leaves, `clean_nan_values` terminates normally and its output contains
no NaN or infinite float leaf; and since the full response passes
through `clean_nan_values` before return, every response the pipeline
returns for such source records — the `jobs` list included — is
JSON-representable (no NaN, no infinities, no array-likes). -/
theorem claim4_sanitized_json_safe :
    (∀ v, structured v = true →
      ∃ w, cleanNanValues v = .ok w ∧ structured w = true ∧ noBadFloat w = true) ∧
    (∀ keywords location fetch jobspy,
      (∀ kw l, jobspy kw = JobspyOutcome.ok l → ∀ v ∈ l, structured v = true) →
      ∃ r, scrape_jobs_by_keyword keywords location fetch jobspy = .ok r ∧
        structured r = true ∧ noBadFloat r = true) := by
  refine ⟨clean_structured, ?_⟩
  intro keywords location fetch jobspy hjs
  by_cases hv : (validate_location location).1 = true
  · have hall : structuredList (allJobs keywords fetch jobspy) = true :=
      (structuredList_iff _).2 (allJobs_mem_structured keywords fetch jobspy hjs)
    have hresp : structured (PyVal.dict
        [("status", .str (if (allJobs keywords fetch jobspy).isEmpty then "no_results" else "success")),
         ("total_jobs", .int ((allJobs keywords fetch jobspy).length : Int)),
         ("keywords", .list (keywords.map PyVal.str)),
         ("location", .str (validate_location location).2),
         ("jobs", .list (allJobs keywords fetch jobspy))]) = true := by
      rw [structured_dict_eq]
      simp only [structuredPairs, structured_str, structured_int, structured_list_eq,
        structuredList_strMap, hall, Bool.and_true, Bool.true_and, Bool.and_self]
    obtain ⟨r, hr, hs, hb⟩ := clean_structured _ hresp
    refine ⟨r, ?_, hs, hb⟩
    rw [scrape_jobs_by_keyword_eq, hv, if_neg (by simp)]
    exact hr
  · rw [Bool.not_eq_true] at hv
    refine ⟨errorResponse location keywords, ?_, ?_, ?_⟩
    · rw [scrape_jobs_by_keyword_eq, hv]
      rfl
    · rw [show errorResponse location keywords = PyVal.dict
        [("status", .str "error"),
         ("error", .str ("Invalid location: '" ++ location ++ "'")),
         ("message", .str ("'" ++ location ++ "' is not a supported location. Valid locations include: " ++
            pyJoin ", " (pySorted (VALID_COUNTRIES.take 20)) ++ "... and more")),
         ("valid_locations", .list ((pySorted VALID_COUNTRIES).map PyVal.str)),
         ("total_jobs", .int 0),
         ("keywords", .list (keywords.map PyVal.str)),
         ("location", .str location),
         ("jobs", .list [])] from rfl]
      rw [structured_dict_eq]
      simp only [structuredPairs, structured_str, structured_int, structured_list_eq,
        structuredList_strMap, structuredList, Bool.and_true, Bool.true_and, Bool.and_self]
    · rw [show errorResponse location keywords = PyVal.dict
        [("status", .str "error"),
         ("error", .str ("Invalid location: '" ++ location ++ "'")),
         ("message", .str ("'" ++ location ++ "' is not a supported location. Valid locations include: " ++
            pyJoin ", " (pySorted (VALID_COUNTRIES.take 20)) ++ "... and more")),
         ("valid_locations", .list ((pySorted VALID_COUNTRIES).map PyVal.str)),
         ("total_jobs", .int 0),
         ("keywords", .list (keywords.map PyVal.str)),
         ("location", .str location),
         ("jobs", .list [])] from rfl]
      rw [noBadFloat_dict_eq]
      simp only [noBadFloatPairs, noBadFloat_str, noBadFloat_int, noBadFloat_list_eq,
        noBadFloatList_strMap, noBadFloatList, Bool.and_true, Bool.true_and, Bool.and_self]

/-- C4 witness: the sanitizer on a list with infinite and finite floats,
and a full pipeline run whose provider record carries a NaN salary. -/
theorem claim4_witness :
    (∃ w, cleanNanValues (.list [.float .inf, .float (.finite 2)]) = .ok w ∧
      structured w = true ∧ noBadFloat w = true) ∧
    (∃ r, scrape_jobs_by_keyword ["python"] "remote" (fun _ _ => SiteFetch.raise)
        (fun _ => JobspyOutcome.ok [.dict [("salary", .float .nan)]]) = .ok r ∧
      structured r = true ∧ noBadFloat r = true) :=
  ⟨claim4_sanitized_json_safe.1 _ rfl,
   claim4_sanitized_json_safe.2 ["python"] "remote" (fun _ _ => SiteFetch.raise)
     (fun _ => JobspyOutcome.ok [.dict [("salary", .float .nan)]])
     (by rintro kw l hl v hv; cases hl; simp only [List.mem_singleton] at hv; subst hv; rfl)⟩

end PyJob
